import Mathlib

/-
Verification of the settings-management facade in
`backend/api/sysSetting.py` (MediaHelp).

The persisted configuration is a JSON-like mapping from string keys to
values.  Python dictionaries are modelled as association lists that keep
insertion order and never hold a key twice in normal operation; all of
the facts proved below are stated through the lookup function, so they
hold for arbitrary association lists.
-/

set_option autoImplicit false

namespace MediaHelp

/-- JSON-like values as stored in the configuration file: strings,
booleans, arrays and objects.  Objects keep insertion order, as Python
dictionaries do. -/
inductive Val : Type where
  | vStr : String → Val
  | vBool : Bool → Val
  | vList : List Val → Val
  | vObj : List (String × Val) → Val
deriving Repr

/-- A configuration snapshot: the top-level JSON object held by the
configuration store. -/
abbrev Config := List (String × Val)

/-- Python dictionary read `d.get(k)` / `d[k]`: first entry with the
given key. -/
def objLookup : List (String × Val) → String → Option Val
  | [], _ => none
  | (a, w) :: rest, k => if a = k then some w else objLookup rest k

/-- Python dictionary write `d[k] = v`: replace in place when the key is
present, append otherwise (insertion order preserved). -/
def objSet : List (String × Val) → String → Val → List (String × Val)
  | [], k, v => [(k, v)]
  | (a, w) :: rest, k, v =>
      if a = k then (a, v) :: rest else (a, w) :: objSet rest k v

/-- Modelled from the spec: `config_manager.get_config` (the
Configuration Store collaborator in `utils/config_manager`, outside the
sources under verification) returns the full snapshot mapping. -/
def get_config (store : Config) : Config := store

/-- Modelled from the spec: `config_manager.update_config` (the
Configuration Store collaborator in `utils/config_manager`, outside the
sources under verification) performs a shallow top-level merge of the
given mapping into the snapshot: keys of the update overwrite the same
keys in the base, keys absent from the update are preserved. -/
def update_config (store newCfg : Config) : Config :=
  newCfg.foldl (fun s kv => objSet s kv.1 kv.2) store

@[simp] theorem objLookup_nil (k : String) : objLookup [] k = none := rfl

theorem objLookup_cons (a k : String) (w : Val) (rest : List (String × Val)) :
    objLookup ((a, w) :: rest) k = if a = k then some w else objLookup rest k := rfl

theorem objLookup_objSet (o : List (String × Val)) (k k' : String) (v : Val) :
    objLookup (objSet o k v) k' = if k' = k then some v else objLookup o k' := by
  induction o with
  | nil =>
      by_cases h : k' = k
      · subst h; simp [objSet, objLookup]
      · simp [objSet, objLookup, h, Ne.symm h]
  | cons hd tl ih =>
      obtain ⟨a, w⟩ := hd
      by_cases hak : a = k
      · subst hak
        by_cases h : k' = a
        · subst h; simp [objSet, objLookup]
        · simp [objSet, objLookup, h, Ne.symm h]
      · by_cases h : a = k'
        · subst h
          simp [objSet, objLookup, hak]
        · simp [objSet, objLookup, hak, h, ih]

theorem objLookup_objSet_self (o : List (String × Val)) (k : String) (v : Val) :
    objLookup (objSet o k v) k = some v := by
  simp [objLookup_objSet]

theorem objLookup_objSet_ne (o : List (String × Val)) (k k' : String) (v : Val)
    (h : k' ≠ k) : objLookup (objSet o k v) k' = objLookup o k' := by
  simp [objLookup_objSet, h]

@[simp] theorem update_config_nil (s : Config) : update_config s [] = s := rfl

theorem update_config_cons (s : Config) (k : String) (v : Val) (rest : Config) :
    update_config s ((k, v) :: rest) = update_config (objSet s k v) rest := rfl

theorem update_config_singleton (s : Config) (k : String) (v : Val) :
    update_config s [(k, v)] = objSet s k v := rfl

theorem update_config_append (s a b : Config) :
    update_config s (a ++ b) = update_config (update_config s a) b := by
  simp [update_config, List.foldl_append]

/-- Request body of `PUT /sysSetting/config` (`schemas.sysSetting.SysSettingUpdate`):
all twelve fields optional. -/
structure SysSettingUpdate : Type where
  emby_url : Option String
  emby_api_key : Option String
  alist_url : Option String
  alist_api_key : Option String
  tianyiAccount : Option String
  tianyiPassword : Option String
  quarkCookie : Option String
  use_proxy : Option Bool
  proxy_host : Option String
  proxy_port : Option String
  proxy_username : Option String
  proxy_password : Option String

/-- One conditional `if config.f is not None: new_config[k] = config.f`
step of `update_system_config`: the staging entry it contributes. -/
def optEntry (k : String) (o : Option Val) : Config :=
  match o with
  | some v => [(k, v)]
  | none => []

/-- The staging mapping `new_config` built field by field in
`update_system_config` (insertion order follows the source). -/
def buildNewConfig (config : SysSettingUpdate) : Config :=
  optEntry "emby_url" (config.emby_url.map Val.vStr) ++
  optEntry "emby_api_key" (config.emby_api_key.map Val.vStr) ++
  optEntry "alist_url" (config.alist_url.map Val.vStr) ++
  optEntry "alist_api_key" (config.alist_api_key.map Val.vStr) ++
  optEntry "tianyiAccount" (config.tianyiAccount.map Val.vStr) ++
  optEntry "tianyiPassword" (config.tianyiPassword.map Val.vStr) ++
  optEntry "quarkCookie" (config.quarkCookie.map Val.vStr) ++
  optEntry "use_proxy" (config.use_proxy.map Val.vBool) ++
  optEntry "proxy_host" (config.proxy_host.map Val.vStr) ++
  optEntry "proxy_port" (config.proxy_port.map Val.vStr) ++
  optEntry "proxy_username" (config.proxy_username.map Val.vStr) ++
  optEntry "proxy_password" (config.proxy_password.map Val.vStr)

/-- The twelve top-level keys `update_system_config` recognizes. -/
def recognizedKeys : List String :=
  ["emby_url", "emby_api_key", "alist_url", "alist_api_key",
   "tianyiAccount", "tianyiPassword", "quarkCookie", "use_proxy",
   "proxy_host", "proxy_port", "proxy_username", "proxy_password"]

/-- `GET /sysSetting/config`: returns the full snapshot.  The first
component is the store after the call (the handler performs no write),
the second the response payload. -/
def get_system_config (store : Config) : Config × Config :=
  (store, get_config store)

/-- `PUT /sysSetting/config`: builds the staging mapping from the
present fields, merge-writes it, re-reads and returns the updated
snapshot.  First component: store after the call; second: response
payload. -/
def update_system_config (store : Config) (config : SysSettingUpdate) :
    Config × Config :=
  let st := update_config store (buildNewConfig config)
  (st, get_config st)

/-- Request/response body of the proxy endpoints
(`schemas.sysSetting.ProxyConfig`): all five fields required. -/
structure ProxyConfig : Type where
  use_proxy : Bool
  proxy_host : String
  proxy_port : String
  proxy_username : String
  proxy_password : String
deriving Repr, DecidableEq

/-- The five proxy entries of a `ProxyConfig`, in the order
`update_proxy_config` builds its `new_config` dictionary. -/
def proxyToEntries (config : ProxyConfig) : Config :=
  [("use_proxy", Val.vBool config.use_proxy),
   ("proxy_host", Val.vStr config.proxy_host),
   ("proxy_port", Val.vStr config.proxy_port),
   ("proxy_username", Val.vStr config.proxy_username),
   ("proxy_password", Val.vStr config.proxy_password)]

/-- `GET /sysSetting/proxy/config`: reads the snapshot and projects the
five proxy fields, with `config.get(key, default)` defaults (`False`
for `use_proxy`, the empty string for the rest).  First component:
store after the call (no write); second: the serialized five-field
response object. -/
def get_proxy_config (store : Config) : Config × List (String × Val) :=
  (store,
   [("use_proxy", (objLookup (get_config store) "use_proxy").getD (Val.vBool false)),
    ("proxy_host", (objLookup (get_config store) "proxy_host").getD (Val.vStr "")),
    ("proxy_port", (objLookup (get_config store) "proxy_port").getD (Val.vStr "")),
    ("proxy_username", (objLookup (get_config store) "proxy_username").getD (Val.vStr "")),
    ("proxy_password", (objLookup (get_config store) "proxy_password").getD (Val.vStr ""))])

/-- `PUT /sysSetting/proxy/config`: merge-writes all five submitted
fields and echoes the submitted object back without re-reading the
store. -/
def update_proxy_config (store : Config) (config : ProxyConfig) :
    Config × ProxyConfig :=
  (update_config store (proxyToEntries config), config)

/-- A Telegram channel entry (`schemas.sysSetting.TGChannel`). -/
structure TGChannel : Type where
  id : String
  name : String
deriving Repr, DecidableEq

/-- `channel.dict()`: the plain `{id, name}` object of a channel. -/
def chDict (c : TGChannel) : Val :=
  Val.vObj [("id", Val.vStr c.id), ("name", Val.vStr c.name)]

/-- The serialized `patterns` mapping as written under
`cloudPatterns`. -/
def patternsVal (ps : List (String × String)) : Val :=
  Val.vObj (ps.map (fun q => (q.1, Val.vStr q.2)))

/-- Python error classes the tg-resource update handler can raise:
`KeyError` (with the missing key) from reading `d[k]` of a dictionary
lacking `k`, and `TypeError` from indexing or item-assigning a
non-dictionary value. -/
inductive PyErr : Type where
  | keyError : String → PyErr
  | typeError : PyErr
deriving Repr, DecidableEq

/-- Python subscript read `v[k]` with a string key: on a dictionary,
the entry or `KeyError k`; on any other value, `TypeError`. -/
def getItem : Val → String → Except PyErr Val
  | Val.vObj o, k =>
      match objLookup o k with
      | some v => Except.ok v
      | none => Except.error (PyErr.keyError k)
  | _, _ => Except.error PyErr.typeError

/-- Python subscript write `v[k] = w` with a string key: updates a
dictionary in place, `TypeError` on any other value. -/
def setItem : Val → String → Val → Except PyErr Val
  | Val.vObj o, k, w => Except.ok (Val.vObj (objSet o k w))
  | _, _, _ => Except.error PyErr.typeError

/-- `GET /sysSetting/tg-resource/config`: returns
`config.get("tg_resource", {})`.  First component: store after the call
(no write); second: response payload. -/
def get_tg_resource_config (store : Config) : Config × Val :=
  (store, (objLookup (get_config store) "tg_resource").getD (Val.vObj []))

/-- `PUT /sysSetting/tg-resource/config`: reads
`tg_config = config.get("tg_resource", {})`; if `channels` is given,
executes `tg_config["telegram"]["channels"] = [c.dict() for c in channels]`
(Python errors modelled by `getItem`/`setItem`); if `patterns` is
given, executes `tg_config["cloudPatterns"] = patterns`; finally
merge-writes `{"tg_resource": tg_config}`.  Returns the store after the
call, or the uncaught Python error. -/
def update_tg_resource_config (store : Config)
    (channels : Option (List TGChannel))
    (patterns : Option (List (String × String))) : Except PyErr Config :=
  let tg0 : Val := (objLookup (get_config store) "tg_resource").getD (Val.vObj [])
  let step1 : Except PyErr Val :=
    match channels with
    | none => Except.ok tg0
    | some chs =>
        match getItem tg0 "telegram" with
        | Except.error e => Except.error e
        | Except.ok tel =>
            match setItem tel "channels" (Val.vList (chs.map chDict)) with
            | Except.error e => Except.error e
            | Except.ok tel2 => setItem tg0 "telegram" tel2
  match step1 with
  | Except.error e => Except.error e
  | Except.ok tg1 =>
      match (match patterns with
             | none => Except.ok tg1
             | some ps => setItem tg1 "cloudPatterns" (patternsVal ps)) with
      | Except.error e => Except.error e
      | Except.ok tg2 => Except.ok (update_config store [("tg_resource", tg2)])

/-- Two-level read `store[k1][k2]` as a partial lookup: `none` when the
outer key is absent or its value is not an object. -/
def getPath2 (store : Config) (k1 k2 : String) : Option Val :=
  match objLookup store k1 with
  | some (Val.vObj o) => objLookup o k2
  | _ => none

theorem objLookup_update_optEntry_self (s : Config) (k : String) (o : Option Val) :
    objLookup (update_config s (optEntry k o)) k = Option.or o (objLookup s k) := by
  cases o <;> simp [optEntry, update_config_singleton, objLookup_objSet, Option.or]

theorem objLookup_update_optEntry_ne (s : Config) (k k' : String) (o : Option Val)
    (h : k' ≠ k) : objLookup (update_config s (optEntry k o)) k' = objLookup s k' := by
  cases o <;> simp [optEntry, update_config_singleton, objLookup_objSet, h]

/-- C1: `update_system_config` has partial-update (PATCH) semantics:
the response is what a subsequent `get_system_config` returns; each of
the twelve recognized fields that is present in the request is stored
with exactly the submitted value, each that is absent keeps its
previous stored value (so omission never clears), and every key outside
the twelve recognized ones is untouched. -/
theorem update_system_config_patch (store : Config) (p : SysSettingUpdate) :
    (get_system_config (update_system_config store p).1).2 = (update_system_config store p).1
    ∧ objLookup (update_system_config store p).1 "emby_url"
        = Option.or (p.emby_url.map Val.vStr) (objLookup store "emby_url")
    ∧ objLookup (update_system_config store p).1 "emby_api_key"
        = Option.or (p.emby_api_key.map Val.vStr) (objLookup store "emby_api_key")
    ∧ objLookup (update_system_config store p).1 "alist_url"
        = Option.or (p.alist_url.map Val.vStr) (objLookup store "alist_url")
    ∧ objLookup (update_system_config store p).1 "alist_api_key"
        = Option.or (p.alist_api_key.map Val.vStr) (objLookup store "alist_api_key")
    ∧ objLookup (update_system_config store p).1 "tianyiAccount"
        = Option.or (p.tianyiAccount.map Val.vStr) (objLookup store "tianyiAccount")
    ∧ objLookup (update_system_config store p).1 "tianyiPassword"
        = Option.or (p.tianyiPassword.map Val.vStr) (objLookup store "tianyiPassword")
    ∧ objLookup (update_system_config store p).1 "quarkCookie"
        = Option.or (p.quarkCookie.map Val.vStr) (objLookup store "quarkCookie")
    ∧ objLookup (update_system_config store p).1 "use_proxy"
        = Option.or (p.use_proxy.map Val.vBool) (objLookup store "use_proxy")
    ∧ objLookup (update_system_config store p).1 "proxy_host"
        = Option.or (p.proxy_host.map Val.vStr) (objLookup store "proxy_host")
    ∧ objLookup (update_system_config store p).1 "proxy_port"
        = Option.or (p.proxy_port.map Val.vStr) (objLookup store "proxy_port")
    ∧ objLookup (update_system_config store p).1 "proxy_username"
        = Option.or (p.proxy_username.map Val.vStr) (objLookup store "proxy_username")
    ∧ objLookup (update_system_config store p).1 "proxy_password"
        = Option.or (p.proxy_password.map Val.vStr) (objLookup store "proxy_password")
    ∧ (∀ k, k ∉ recognizedKeys →
        objLookup (update_system_config store p).1 k = objLookup store k) := by
  have hframe : ∀ k, k ∉ recognizedKeys →
      objLookup (update_system_config store p).1 k = objLookup store k := by
    intro k hk
    simp only [recognizedKeys, List.mem_cons, List.not_mem_nil, or_false] at hk
    push_neg at hk
    obtain ⟨h1, h2, h3, h4, h5, h6, h7, h8, h9, h10, h11, h12⟩ := hk
    simp [update_system_config, buildNewConfig, update_config_append,
      objLookup_update_optEntry_ne, h1, h2, h3, h4, h5, h6, h7, h8, h9, h10, h11, h12]
  refine ⟨rfl, ?_, ?_, ?_, ?_, ?_, ?_, ?_, ?_, ?_, ?_, ?_, ?_, hframe⟩
  all_goals
    simp [update_system_config, buildNewConfig, update_config_append,
      objLookup_update_optEntry_ne, objLookup_update_optEntry_self]

/-- Witness for C1 at a concrete store and partial update: a key outside
the recognized twelve is untouched by the update. -/
theorem update_system_config_patch_witness :
    "custom_key" ∉ recognizedKeys
    ∧ objLookup (update_system_config
          [("alist_url", Val.vStr "b"), ("custom_key", Val.vStr "z")]
          ⟨some "c", none, none, none, none, none, none, none, none, none, none, none⟩).1
        "custom_key"
      = objLookup [("alist_url", Val.vStr "b"), ("custom_key", Val.vStr "z")] "custom_key" :=
  ⟨by decide,
   (update_system_config_patch
      [("alist_url", Val.vStr "b"), ("custom_key", Val.vStr "z")]
      ⟨some "c", none, none, none, none, none, none, none, none, none, none,
       none⟩).2.2.2.2.2.2.2.2.2.2.2.2.2 "custom_key" (by decide)⟩

/-- C9: `get_system_config` returns the full snapshot verbatim — no
filtering of any field — and performs no write, so two consecutive
calls with no intervening update return identical mappings. -/
theorem get_system_config_verbatim (store : Config) :
    (get_system_config store).2 = store
    ∧ (get_system_config store).1 = store
    ∧ (get_system_config (get_system_config store).1).2 = (get_system_config store).2 :=
  ⟨rfl, rfl, rfl⟩

/-- The five proxy keys, in response order. -/
def proxyKeys : List String :=
  ["use_proxy", "proxy_host", "proxy_port", "proxy_username", "proxy_password"]

/-- The all-default proxy response: `use_proxy` false, the four string
fields empty. -/
def defaultProxyEntries : List (String × Val) :=
  [("use_proxy", Val.vBool false), ("proxy_host", Val.vStr ""),
   ("proxy_port", Val.vStr ""), ("proxy_username", Val.vStr ""),
   ("proxy_password", Val.vStr "")]

/-- C5: `get_proxy_config` projects exactly the five proxy fields —
never the full configuration — taking each stored value when its key is
present and the `false`/empty-string default when absent; on a store
with none of the five keys it returns the all-default object. -/
theorem get_proxy_config_projection (store : Config) :
    ((get_proxy_config store).2.map Prod.fst = proxyKeys)
    ∧ ((get_proxy_config store).1 = store)
    ∧ (∀ k v, k ∈ proxyKeys → objLookup store k = some v →
        objLookup (get_proxy_config store).2 k = some v)
    ∧ (∀ k, k ∈ proxyKeys → objLookup store k = none →
        objLookup (get_proxy_config store).2 k = objLookup defaultProxyEntries k)
    ∧ ((∀ k, k ∈ proxyKeys → objLookup store k = none) →
        (get_proxy_config store).2 = defaultProxyEntries) := by
  refine ⟨rfl, rfl, ?_, ?_, ?_⟩
  · intro k v hk hv
    simp only [proxyKeys, List.mem_cons, List.not_mem_nil, or_false] at hk
    rcases hk with rfl | rfl | rfl | rfl | rfl <;>
      simp [get_proxy_config, get_config, objLookup, hv]
  · intro k hk hv
    simp only [proxyKeys, List.mem_cons, List.not_mem_nil, or_false] at hk
    rcases hk with rfl | rfl | rfl | rfl | rfl <;>
      simp [get_proxy_config, get_config, defaultProxyEntries, objLookup, hv]
  · intro h
    have h1 := h "use_proxy" (by simp [proxyKeys])
    have h2 := h "proxy_host" (by simp [proxyKeys])
    have h3 := h "proxy_port" (by simp [proxyKeys])
    have h4 := h "proxy_username" (by simp [proxyKeys])
    have h5 := h "proxy_password" (by simp [proxyKeys])
    simp [get_proxy_config, get_config, defaultProxyEntries, h1, h2, h3, h4, h5]

/-- Witness for C5 on the empty store: the response is the all-default
five-field object. -/
theorem get_proxy_config_projection_witness :
    (get_proxy_config []).2 = defaultProxyEntries :=
  (get_proxy_config_projection []).2.2.2.2 (fun _ _ => rfl)

/-- C4: `update_proxy_config` always writes all five proxy fields (the
staging mapping carries exactly the five keys, whatever the current
values), echoes the submitted object back as the response, and a
subsequent `get_proxy_config` returns exactly the submitted object. -/
theorem update_proxy_config_full_replace (store : Config) (p : ProxyConfig) :
    ((proxyToEntries p).map Prod.fst = proxyKeys)
    ∧ ((update_proxy_config store p).1 = update_config store (proxyToEntries p))
    ∧ ((update_proxy_config store p).2 = p)
    ∧ ((get_proxy_config (update_proxy_config store p).1).2 = proxyToEntries p) := by
  refine ⟨rfl, rfl, rfl, ?_⟩
  simp [update_proxy_config, get_proxy_config, get_config, proxyToEntries,
    update_config, objLookup_objSet]

/-- C8: `get_tg_resource_config` returns exactly the stored
`tg_resource` value, the empty object when the key is absent, and
performs no write. -/
theorem get_tg_resource_config_spec (store : Config) :
    ((get_tg_resource_config store).1 = store)
    ∧ (∀ v, objLookup store "tg_resource" = some v →
        (get_tg_resource_config store).2 = v)
    ∧ (objLookup store "tg_resource" = none →
        (get_tg_resource_config store).2 = Val.vObj []) := by
  refine ⟨rfl, ?_, ?_⟩
  · intro v hv; simp [get_tg_resource_config, get_config, hv]
  · intro hv; simp [get_tg_resource_config, get_config, hv]

/-- Witness for C8 at a store holding a concrete `tg_resource` value. -/
theorem get_tg_resource_config_spec_witness :
    (get_tg_resource_config [("tg_resource", Val.vStr "t")]).2 = Val.vStr "t" :=
  (get_tg_resource_config_spec [("tg_resource", Val.vStr "t")]).2.1 (Val.vStr "t") rfl

/-- C10: the tg-resource update always performs a store write: with
both fields absent it writes back `{tg_resource: current value or {}}`,
and called with no arguments on a store lacking the `tg_resource` key
it creates that key with the empty object, changing the store. -/
theorem update_tg_resource_config_always_writes (store : Config) :
    (update_tg_resource_config store none none
      = Except.ok (update_config store
          [("tg_resource", (objLookup store "tg_resource").getD (Val.vObj []))]))
    ∧ (objLookup store "tg_resource" = none →
        ∃ st2, update_tg_resource_config store none none = Except.ok st2
          ∧ objLookup st2 "tg_resource" = some (Val.vObj [])
          ∧ st2 ≠ store) := by
  refine ⟨rfl, ?_⟩
  intro h
  refine ⟨objSet store "tg_resource" (Val.vObj []), ?_, objLookup_objSet_self _ _ _, ?_⟩
  · simp [update_tg_resource_config, get_config, h, update_config_singleton]
  · intro heq
    have hx := congrArg (fun s => objLookup s "tg_resource") heq
    simp only [objLookup_objSet_self, h] at hx
    exact Option.noConfusion hx

/-- Witness for C10 on the empty store: the call creates the
`tg_resource` key with the empty object. -/
theorem update_tg_resource_config_always_writes_witness :
    ∃ st2, update_tg_resource_config [] none none = Except.ok st2
      ∧ objLookup st2 "tg_resource" = some (Val.vObj []) ∧ st2 ≠ [] :=
  (update_tg_resource_config_always_writes []).2 rfl

/-- C3: whenever the tg-resource update is given a patterns mapping and
succeeds, the stored `tg_resource.cloudPatterns` afterwards is exactly
the submitted mapping — a full replace, so every previously stored
pattern key not present in the new mapping is gone. -/
theorem update_tg_resource_config_patterns_replace (store st2 : Config)
    (chs : Option (List TGChannel)) (ps : List (String × String))
    (h : update_tg_resource_config store chs (some ps) = Except.ok st2) :
    getPath2 st2 "tg_resource" "cloudPatterns" = some (patternsVal ps) := by
  simp only [update_tg_resource_config, get_config] at h
  split at h
  · exact Except.noConfusion h
  · split at h
    · exact Except.noConfusion h
    · rename_i x1 tg1 heq1 x2 tg2 heq2
      have hobj : ∃ o1, tg1 = Val.vObj o1 := by
        cases tg1 with
        | vObj o1 => exact ⟨o1, rfl⟩
        | vStr s => simp [setItem] at heq2
        | vBool b => simp [setItem] at heq2
        | vList l => simp [setItem] at heq2
      obtain ⟨o1, rfl⟩ := hobj
      simp only [setItem, Except.ok.injEq] at heq2
      subst heq2
      have h2 := h
      simp only [Except.ok.injEq] at h2
      subst h2
      simp [getPath2, update_config_singleton, objLookup_objSet_self]

/-- Witness for C3 at a concrete store holding two old patterns: after
submitting a single new pattern, `cloudPatterns` is exactly the new
single-entry mapping. -/
theorem update_tg_resource_config_patterns_replace_witness :
    getPath2 (objSet
        [("tg_resource", Val.vObj [("cloudPatterns",
            Val.vObj [("a", Val.vStr "x"), ("b", Val.vStr "y")])])]
        "tg_resource"
        (Val.vObj [("cloudPatterns", Val.vObj [("c", Val.vStr "z")])]))
      "tg_resource" "cloudPatterns" = some (patternsVal [("c", "z")]) :=
  update_tg_resource_config_patterns_replace
    [("tg_resource", Val.vObj [("cloudPatterns",
        Val.vObj [("a", Val.vStr "x"), ("b", Val.vStr "y")])])]
    _ none [("c", "z")] rfl

/-- C6: with `tg_resource.telegram` stored as an object and a channels
list submitted, the update succeeds and replaces
`tg_resource.telegram.channels` with exactly the submitted ordered
sequence, each entry in its plain `{id, name}` form (full replace, not
append), while every key of `telegram` other than `channels` keeps its
previous value in the written object. -/
theorem update_tg_resource_config_channels_replace (store : Config)
    (tg tel : List (String × Val)) (chs : List TGChannel)
    (h1 : objLookup store "tg_resource" = some (Val.vObj tg))
    (h2 : objLookup tg "telegram" = some (Val.vObj tel)) :
    ∃ st2 tel2,
      update_tg_resource_config store (some chs) none = Except.ok st2
      ∧ getPath2 st2 "tg_resource" "telegram" = some (Val.vObj tel2)
      ∧ objLookup tel2 "channels" = some (Val.vList (chs.map chDict))
      ∧ (∀ k, k ≠ "channels" → objLookup tel2 k = objLookup tel k) := by
  refine ⟨objSet store "tg_resource"
      (Val.vObj (objSet tg "telegram"
        (Val.vObj (objSet tel "channels" (Val.vList (chs.map chDict)))))),
    objSet tel "channels" (Val.vList (chs.map chDict)), ?_, ?_, ?_, ?_⟩
  · simp [update_tg_resource_config, get_config, h1, getItem, h2, setItem,
      update_config_singleton]
  · simp [getPath2, objLookup_objSet_self]
  · exact objLookup_objSet_self _ _ _
  · intro k hk; exact objLookup_objSet_ne _ _ _ _ hk

/-- Witness for C6: a stored one-channel list is fully replaced by the
submitted one-channel list, and the sibling key `baseUrl` survives. -/
theorem update_tg_resource_config_channels_replace_witness :
    ∃ st2 tel2,
      update_tg_resource_config
          [("tg_resource", Val.vObj [("telegram", Val.vObj
              [("baseUrl", Val.vStr "https://t.me/s"),
               ("channels", Val.vList [chDict ⟨"x", "X"⟩])])])]
          (some [⟨"y", "Y"⟩]) none = Except.ok st2
      ∧ getPath2 st2 "tg_resource" "telegram" = some (Val.vObj tel2)
      ∧ objLookup tel2 "channels" = some (Val.vList (([⟨"y", "Y"⟩] : List TGChannel).map chDict))
      ∧ (∀ k, k ≠ "channels" → objLookup tel2 k
          = objLookup [("baseUrl", Val.vStr "https://t.me/s"),
                       ("channels", Val.vList [chDict ⟨"x", "X"⟩])] k) :=
  update_tg_resource_config_channels_replace
    [("tg_resource", Val.vObj [("telegram", Val.vObj
        [("baseUrl", Val.vStr "https://t.me/s"),
         ("channels", Val.vList [chDict ⟨"x", "X"⟩])])])]
    [("telegram", Val.vObj
        [("baseUrl", Val.vStr "https://t.me/s"),
         ("channels", Val.vList [chDict ⟨"x", "X"⟩])])]
    [("baseUrl", Val.vStr "https://t.me/s"),
     ("channels", Val.vList [chDict ⟨"x", "X"⟩])]
    [⟨"y", "Y"⟩] rfl rfl

/-- C7: each optional field of the tg-resource update acts only on its
own sub-section: whenever the call succeeds, every top-level key other
than `tg_resource` is unchanged; if `channels` is absent the
`tg_resource.telegram` value (its channels sequence included) is
unchanged; if `patterns` is absent the `tg_resource.cloudPatterns`
value is unchanged. -/
theorem update_tg_resource_config_frame (store st2 : Config)
    (chs : Option (List TGChannel)) (ps : Option (List (String × String)))
    (h : update_tg_resource_config store chs ps = Except.ok st2) :
    (∀ k, k ≠ "tg_resource" → objLookup st2 k = objLookup store k)
    ∧ (chs = none →
        getPath2 st2 "tg_resource" "telegram"
          = getPath2 store "tg_resource" "telegram")
    ∧ (ps = none →
        getPath2 st2 "tg_resource" "cloudPatterns"
          = getPath2 store "tg_resource" "cloudPatterns") := by
  cases chs with
  | none =>
      cases ps with
      | none =>
          simp only [update_tg_resource_config, get_config, update_config_singleton,
            Except.ok.injEq] at h
          subst h
          refine ⟨fun k hk => objLookup_objSet_ne _ _ _ _ hk, fun _ => ?_, fun _ => ?_⟩ <;>
          · cases hl : objLookup store "tg_resource" with
            | none => simp [getPath2, objLookup_objSet_self, hl]
            | some v => cases v <;> simp [getPath2, objLookup_objSet_self, hl]
      | some ps2 =>
          cases hl : objLookup store "tg_resource" with
          | none =>
              simp only [update_tg_resource_config, get_config, hl, Option.getD_none,
                setItem, objSet, update_config_singleton, Except.ok.injEq] at h
              subst h
              refine ⟨fun k hk => objLookup_objSet_ne _ _ _ _ hk, fun _ => ?_,
                fun hp => Option.noConfusion hp⟩
              simp [getPath2, objLookup_objSet_self, objLookup, hl]
          | some v =>
              cases v with
              | vObj o0 =>
                  simp only [update_tg_resource_config, get_config, hl, Option.getD_some,
                    setItem, update_config_singleton, Except.ok.injEq] at h
                  subst h
                  refine ⟨fun k hk => objLookup_objSet_ne _ _ _ _ hk, fun _ => ?_,
                    fun hp => Option.noConfusion hp⟩
                  simp [getPath2, objLookup_objSet_self, objLookup_objSet_ne, hl]
              | vStr s =>
                  simp [update_tg_resource_config, get_config, hl, setItem] at h
              | vBool b =>
                  simp [update_tg_resource_config, get_config, hl, setItem] at h
              | vList l =>
                  simp [update_tg_resource_config, get_config, hl, setItem] at h
  | some chs2 =>
      cases hl : objLookup store "tg_resource" with
      | none =>
          simp [update_tg_resource_config, get_config, hl, getItem, objLookup] at h
      | some v =>
          cases v with
          | vObj tg =>
              cases hl2 : objLookup tg "telegram" with
              | none =>
                  simp [update_tg_resource_config, get_config, hl, hl2, getItem] at h
              | some w =>
                  cases w with
                  | vObj tel =>
                      cases ps with
                      | none =>
                          simp only [update_tg_resource_config, get_config, hl, hl2,
                            Option.getD_some, getItem, setItem, update_config_singleton,
                            Except.ok.injEq] at h
                          subst h
                          refine ⟨fun k hk => objLookup_objSet_ne _ _ _ _ hk,
                            fun hc => Option.noConfusion hc, fun _ => ?_⟩
                          simp [getPath2, objLookup_objSet_self, objLookup_objSet_ne, hl]
                      | some ps2 =>
                          simp only [update_tg_resource_config, get_config, hl, hl2,
                            Option.getD_some, getItem, setItem, update_config_singleton,
                            Except.ok.injEq] at h
                          subst h
                          exact ⟨fun k hk => objLookup_objSet_ne _ _ _ _ hk,
                            fun hc => Option.noConfusion hc,
                            fun hp => Option.noConfusion hp⟩
                  | vStr s =>
                      simp [update_tg_resource_config, get_config, hl, hl2, getItem,
                        setItem] at h
                  | vBool b =>
                      simp [update_tg_resource_config, get_config, hl, hl2, getItem,
                        setItem] at h
                  | vList l =>
                      simp [update_tg_resource_config, get_config, hl, hl2, getItem,
                        setItem] at h
          | vStr s =>
              simp [update_tg_resource_config, get_config, hl, getItem] at h
          | vBool b =>
              simp [update_tg_resource_config, get_config, hl, getItem] at h
          | vList l =>
              simp [update_tg_resource_config, get_config, hl, getItem] at h

/-- Witness for C7: a patterns-only update on a concrete store leaves
the unrelated top-level key `emby_url` and the stored
`tg_resource.telegram` object unchanged. -/
theorem update_tg_resource_config_frame_witness :
    objLookup (objSet
        [("emby_url", Val.vStr "e"),
         ("tg_resource", Val.vObj [("telegram", Val.vObj [("channels", Val.vList [])])])]
        "tg_resource"
        (Val.vObj [("telegram", Val.vObj [("channels", Val.vList [])]),
                   ("cloudPatterns", patternsVal [("c", "z")])]))
      "emby_url"
      = objLookup
          [("emby_url", Val.vStr "e"),
           ("tg_resource", Val.vObj [("telegram", Val.vObj [("channels", Val.vList [])])])]
          "emby_url" :=
  (update_tg_resource_config_frame
    [("emby_url", Val.vStr "e"),
     ("tg_resource", Val.vObj [("telegram", Val.vObj [("channels", Val.vList [])])])]
    _ none (some [("c", "z")]) rfl).1 "emby_url" (by decide)

/-- C2 counterexample: the claim ties the missing-key error to
`tg_resource.telegram` not existing *as an object*.  On a store whose
`telegram` key holds a string — so it does not exist as an object — a
channels update raises a type error, not a missing-key error, refuting
the stated equivalence. -/
theorem update_tg_resource_config_keyError_cex :
    ¬ (∀ (store : Config) (chs : Option (List TGChannel))
         (ps : Option (List (String × String))),
        (∃ k, update_tg_resource_config store chs ps
            = Except.error (PyErr.keyError k))
          ↔ (chs.isSome
              ∧ ∀ tel, getPath2 store "tg_resource" "telegram"
                  ≠ some (Val.vObj tel))) := by
  intro hclaim
  obtain ⟨k, hk⟩ :=
    (hclaim [("tg_resource", Val.vObj [("telegram", Val.vStr "x")])]
      (some []) none).mpr
      ⟨rfl, by intro tel hcontra; simp [getPath2, objLookup] at hcontra⟩
  simp [update_tg_resource_config, get_config, objLookup, getItem, setItem] at hk

/-- C2 (amended): the tg-resource update raises a missing-key error
exactly when `channels` is given while the current `tg_resource` value
(the empty object when the key is absent) is an object lacking the key
`telegram`; when the `telegram` key is present — whatever its value —
or `channels` is absent, no missing-key error occurs (a type error may
occur instead when a touched value is not an object). -/
theorem update_tg_resource_config_keyError_iff (store : Config)
    (chs : Option (List TGChannel)) (ps : Option (List (String × String))) :
    (∃ k, update_tg_resource_config store chs ps
        = Except.error (PyErr.keyError k))
      ↔ (chs.isSome
          ∧ ∃ tg, (objLookup store "tg_resource").getD (Val.vObj []) = Val.vObj tg
              ∧ objLookup tg "telegram" = none) := by
  constructor
  · rintro ⟨k, hk⟩
    cases chs with
    | none =>
        exfalso
        cases ps with
        | none =>
            simp [update_tg_resource_config, get_config] at hk
        | some ps2 =>
            cases hl : objLookup store "tg_resource" with
            | none =>
                simp [update_tg_resource_config, get_config, hl, setItem] at hk
            | some v =>
                cases v <;>
                  simp [update_tg_resource_config, get_config, hl, setItem] at hk
    | some chs2 =>
        cases hl : objLookup store "tg_resource" with
        | none => exact ⟨rfl, [], by simp [hl], rfl⟩
        | some v =>
            cases v with
            | vObj tg =>
                cases hl2 : objLookup tg "telegram" with
                | none => exact ⟨rfl, tg, by simp [hl], hl2⟩
                | some w =>
                    exfalso
                    cases w with
                    | vObj tel =>
                        cases ps with
                        | none =>
                            simp [update_tg_resource_config, get_config, hl, hl2,
                              getItem, setItem] at hk
                        | some ps2 =>
                            simp [update_tg_resource_config, get_config, hl, hl2,
                              getItem, setItem] at hk
                    | vStr s =>
                        simp [update_tg_resource_config, get_config, hl, hl2,
                          getItem, setItem] at hk
                    | vBool b =>
                        simp [update_tg_resource_config, get_config, hl, hl2,
                          getItem, setItem] at hk
                    | vList l =>
                        simp [update_tg_resource_config, get_config, hl, hl2,
                          getItem, setItem] at hk
            | vStr s =>
                exfalso
                simp [update_tg_resource_config, get_config, hl, getItem] at hk
            | vBool b =>
                exfalso
                simp [update_tg_resource_config, get_config, hl, getItem] at hk
            | vList l =>
                exfalso
                simp [update_tg_resource_config, get_config, hl, getItem] at hk
  · rintro ⟨hs, tg, htg, hnone⟩
    cases chs with
    | none => simp at hs
    | some chs2 =>
        refine ⟨"telegram", ?_⟩
        simp [update_tg_resource_config, get_config, htg, getItem, hnone]

/-- Witness for the amended C2: on a store lacking `tg_resource`, a
channels update fails with the missing-key error. -/
theorem update_tg_resource_config_keyError_iff_witness :
    ∃ k, update_tg_resource_config [] (some [⟨"y", "Y"⟩]) none
        = Except.error (PyErr.keyError k) :=
  (update_tg_resource_config_keyError_iff [] (some [⟨"y", "Y"⟩]) none).mpr
    ⟨rfl, [], rfl, rfl⟩

end MediaHelp
